import Mathlib

/-!
Verification of the microgrid simulation service
(repository `Abhaysoft-inc/microgrid-simulation`).

The transport layer lives in `backend/main.py`.  The dispatch engine it
imports (`simulation.py`, providing `SimulationConfig` and
`MicrogridSimulator`) is not part of the source tree available here, so the
engine is modelled from the specification document, over exact rational
arithmetic `ℚ` (so every "within floating tolerance" statement is proved as
an exact identity).
-/

namespace Microgrid

/-- Modelled from the spec: the weather mode of `SimulationConfig` in the
missing `backend/simulation.py` (`sunny` full efficiency, `cloudy` half). -/
inductive WeatherMode where
  | sunny
  | cloudy
deriving DecidableEq

/-- Modelled from the spec: the validated, immutable `SimulationConfig` of the
missing `backend/simulation.py`.  Prices are the three resolved time-of-use
prices (manual mode copies them from the request; `derc` mode resolves them
from the rate table).  Default values follow `main.py`'s request defaults and
the engine's internal battery constants. -/
structure SimulationConfig where
  battery_capacity_kwh : ℚ := 10
  battery_efficiency : ℚ := 9/10
  min_soc : ℚ := 1/5
  max_soc : ℚ := 9/10
  initial_soc : ℚ := 1/2
  solar_capacity_kw : ℚ := 5
  weather_mode : WeatherMode := WeatherMode.sunny
  peak_load_demand : ℚ := 7
  off_peak_price : ℚ := 4
  standard_price : ℚ := 13/2
  peak_price : ℚ := 17/2
deriving DecidableEq

/-- The documented bounds of §3 of the spec on a validated configuration
(battery 1–100 kWh, solar 3–7 kW, load 1–20 kW, initial SoC 0.2–1.0, the
three price bounds of `main.py`, and the structural battery constants). -/
def ValidConfig (cfg : SimulationConfig) : Prop :=
  1 ≤ cfg.battery_capacity_kwh ∧ cfg.battery_capacity_kwh ≤ 100 ∧
  0 < cfg.battery_efficiency ∧ cfg.battery_efficiency ≤ 1 ∧
  0 ≤ cfg.min_soc ∧ cfg.min_soc ≤ cfg.max_soc ∧ cfg.max_soc ≤ 1 ∧
  1/5 ≤ cfg.initial_soc ∧ cfg.initial_soc ≤ 1 ∧
  3 ≤ cfg.solar_capacity_kw ∧ cfg.solar_capacity_kw ≤ 7 ∧
  1 ≤ cfg.peak_load_demand ∧ cfg.peak_load_demand ≤ 20 ∧
  2 ≤ cfg.off_peak_price ∧ cfg.off_peak_price ≤ 10 ∧
  3 ≤ cfg.standard_price ∧ cfg.standard_price ≤ 12 ∧
  5 ≤ cfg.peak_price ∧ cfg.peak_price ≤ 15

instance (cfg : SimulationConfig) : Decidable (ValidConfig cfg) := by
  unfold ValidConfig
  infer_instance

/-- Off-peak tariff period: hours 00:00–06:00. -/
def isOffPeakHour (h : Nat) : Prop := h < 6

instance (h : Nat) : Decidable (isOffPeakHour h) := by
  unfold isOffPeakHour
  infer_instance

/-- Peak tariff period: hours 18:00–22:00. -/
def isPeakHour (h : Nat) : Prop := 18 ≤ h ∧ h < 22

instance (h : Nat) : Decidable (isPeakHour h) := by
  unfold isPeakHour
  infer_instance

/-- Standard tariff period: hours 06:00–18:00 and 22:00–24:00. -/
def isStandardHour (h : Nat) : Prop := (6 ≤ h ∧ h < 18) ∨ (22 ≤ h ∧ h < 24)

instance (h : Nat) : Decidable (isStandardHour h) := by
  unfold isStandardHour
  infer_instance

/-- Modelled from the spec: the TariffEngine of the missing
`backend/simulation.py`: off-peak price before 06:00, standard price for
06:00–18:00, peak price for 18:00–22:00, standard again for 22:00–24:00. -/
def getPrice (cfg : SimulationConfig) (h : Nat) : ℚ :=
  if h < 6 then cfg.off_peak_price
  else if h < 18 then cfg.standard_price
  else if h < 22 then cfg.peak_price
  else cfg.standard_price

/-- Modelled from the spec: the weather efficiency factor of the
ProfileGenerator in the missing `backend/simulation.py`. -/
def weatherFactor : WeatherMode → ℚ
  | WeatherMode.sunny => 1
  | WeatherMode.cloudy => 1/2

/-- Modelled from the spec: the normalized bell shape of the solar curve of
the missing `backend/simulation.py`: zero outside the daylight window 06–18,
the parabola `1 - ((h - 12) / 6)^2` sampled at integer hours inside it,
peaking at value 1 at solar noon (hour 12). -/
def solarShape (h : Nat) : ℚ :=
  match h with
  | 6 => 0
  | 7 => 11/36
  | 8 => 5/9
  | 9 => 3/4
  | 10 => 8/9
  | 11 => 35/36
  | 12 => 1
  | 13 => 35/36
  | 14 => 8/9
  | 15 => 3/4
  | 16 => 5/9
  | 17 => 11/36
  | _ => 0

/-- Modelled from the spec: hourly solar generation of the missing
`backend/simulation.py`: capacity × weather factor × normalized bell shape. -/
def solarProfile (cfg : SimulationConfig) (h : Nat) : ℚ :=
  cfg.solar_capacity_kw * weatherFactor cfg.weather_mode * solarShape h

/-- Modelled from the spec: the normalized two-peak load shape of the missing
`backend/simulation.py` (morning rise, evening peak aligned with the
18:00–22:00 peak-price window, maximum value 1 at hours 19–20). -/
def loadShape (h : Nat) : ℚ :=
  match h with
  | 0 => 3/10
  | 1 => 3/10
  | 2 => 3/10
  | 3 => 3/10
  | 4 => 3/10
  | 5 => 3/10
  | 6 => 1/2
  | 7 => 7/10
  | 8 => 4/5
  | 9 => 3/5
  | 10 => 3/5
  | 11 => 3/5
  | 12 => 3/5
  | 13 => 3/5
  | 14 => 3/5
  | 15 => 3/5
  | 16 => 3/5
  | 17 => 7/10
  | 18 => 9/10
  | 19 => 1
  | 20 => 1
  | 21 => 9/10
  | 22 => 3/5
  | 23 => 2/5
  | _ => 3/10

/-- Modelled from the spec: hourly load demand of the missing
`backend/simulation.py`, normalized so its maximum equals
`peak_load_demand`. -/
def loadProfile (cfg : SimulationConfig) (h : Nat) : ℚ :=
  cfg.peak_load_demand * loadShape h

/-- Modelled from the spec: one simulated hour of the ledger kept by the
missing `backend/simulation.py` (`battery_flow` is the net battery flow,
positive when charging). -/
structure HourlyRecord where
  hour : Nat
  solar : ℚ
  load : ℚ
  price : ℚ
  soc : ℚ
  grid : ℚ
  battery_flow : ℚ
  curtailed_solar : ℚ
deriving DecidableEq

/-- Battery charge energy of one record: the positive part of the net flow. -/
def HourlyRecord.charge (r : HourlyRecord) : ℚ := max r.battery_flow 0

/-- Battery discharge energy of one record: the negative part of the net
flow. -/
def HourlyRecord.discharge (r : HourlyRecord) : ℚ := max (-r.battery_flow) 0

/-- The per-hour energy-balance invariant of §3 of the spec, stated exactly
over `ℚ` (hence in particular within any floating tolerance). -/
def energyBalanced (r : HourlyRecord) : Prop :=
  r.solar + r.grid + r.discharge = r.load + r.charge + r.curtailed_solar

/-- Modelled from the spec: one Baseline-strategy hour of the missing
`backend/simulation.py`: direct solar use only, no battery activity. -/
def baselineHour (cfg : SimulationConfig) (h : Nat) : HourlyRecord :=
  let solar := solarProfile cfg h
  let load := loadProfile cfg h
  let solar_used := min solar load
  { hour := h
    solar := solar
    load := load
    price := getPrice cfg h
    soc := cfg.initial_soc
    grid := load - solar_used
    battery_flow := 0
    curtailed_solar := solar - solar_used }

/-- Modelled from the spec: the 24-hour Baseline ledger of the missing
`backend/simulation.py`. -/
def baselineRecords (cfg : SimulationConfig) : List HourlyRecord :=
  (List.range 24).map (baselineHour cfg)

/-- Clamp a state of charge into the configured band. -/
def clampSoc (cfg : SimulationConfig) (x : ℚ) : ℚ :=
  max cfg.min_soc (min cfg.max_soc x)

/-- Modelled from the spec: dispatch rule 2 of §4.4 in the missing
`backend/simulation.py`: the bus-side energy drawn from excess solar into
the battery, bounded by the headroom `(max_soc - soc) × capacity` scaled by
the charge efficiency. -/
def solarChargeAmount (cfg : SimulationConfig) (soc excess : ℚ) : ℚ :=
  if 0 < excess then
    min excess
      ((cfg.max_soc - soc) * cfg.battery_capacity_kwh / cfg.battery_efficiency)
  else 0

/-- Modelled from the spec: dispatch rule 3 of §4.4 in the missing
`backend/simulation.py`: the energy delivered from the battery to the load
during a peak hour, bounded by the stored energy above `min_soc` reduced by
the discharge efficiency. -/
def dischargeAmount (cfg : SimulationConfig) (h : Nat) (soc remaining : ℚ) : ℚ :=
  if 0 < remaining ∧ isPeakHour h ∧ cfg.min_soc < soc then
    min remaining
      ((soc - cfg.min_soc) * cfg.battery_capacity_kwh * cfg.battery_efficiency)
  else 0

/-- Modelled from the spec: dispatch rule 4 of §4.4 in the missing
`backend/simulation.py`: the additional grid energy drawn during an
off-peak hour, when no solar charging occurred, to charge the battery up to
its `max_soc` ceiling. -/
def gridChargeAmount (cfg : SimulationConfig) (h : Nat) (solar_charge soc : ℚ) : ℚ :=
  if solar_charge = 0 ∧ isOffPeakHour h ∧ soc < cfg.max_soc then
    (cfg.max_soc - soc) * cfg.battery_capacity_kwh / cfg.battery_efficiency
  else 0

/-- Modelled from the spec: one Smart-strategy hour of the missing
`backend/simulation.py`, applying the dispatch rules of §4.4 in priority
order: direct solar use, solar-to-battery charge bounded by headroom,
peak-hour discharge bounded by the stored energy above `min_soc`, off-peak
opportunistic grid charge toward `max_soc` (only when no solar charge
occurred), standard fallback to grid, then the SoC update clamped to
`[min_soc, max_soc]`.  Returns the hour's record and the carried SoC. -/
def smartStep (cfg : SimulationConfig) (h : Nat) (soc : ℚ) : HourlyRecord × ℚ :=
  let solar := solarProfile cfg h
  let load := loadProfile cfg h
  let solar_used := min solar load
  let remaining_load := load - solar_used
  let excess_solar := solar - solar_used
  let solar_charge := solarChargeAmount cfg soc excess_solar
  let soc1 := soc + solar_charge * cfg.battery_efficiency / cfg.battery_capacity_kwh
  let discharge := dischargeAmount cfg h soc1 remaining_load
  let soc2 := soc1 - discharge / cfg.battery_efficiency / cfg.battery_capacity_kwh
  let grid_charge := gridChargeAmount cfg h solar_charge soc2
  let soc3 := soc2 + grid_charge * cfg.battery_efficiency / cfg.battery_capacity_kwh
  let socFinal := clampSoc cfg soc3
  ({ hour := h
     solar := solar
     load := load
     price := getPrice cfg h
     soc := socFinal
     grid := remaining_load - discharge + grid_charge
     battery_flow := solar_charge + grid_charge - discharge
     curtailed_solar := excess_solar - solar_charge }, socFinal)

/-- Modelled from the spec: the Smart-strategy loop of the missing
`backend/simulation.py`, threading the SoC through the given hours.  Returns
the emitted records and the final SoC. -/
def smartRunAux (cfg : SimulationConfig) (hs : List Nat) (soc : ℚ) :
    List HourlyRecord × ℚ :=
  match hs with
  | [] => ([], soc)
  | h :: rest =>
    let step := smartStep cfg h soc
    let next := smartRunAux cfg rest step.2
    (step.1 :: next.1, next.2)

/-- Modelled from the spec: the 24-hour Smart ledger of the missing
`backend/simulation.py`. -/
def smartRecords (cfg : SimulationConfig) : List HourlyRecord :=
  (smartRunAux cfg (List.range 24) cfg.initial_soc).1

/-- Modelled from the spec: one strategy's ledger plus its totals, as built
by the missing `backend/simulation.py`. -/
structure StrategyResult where
  records : List HourlyRecord
  total_grid_kwh : ℚ
  total_cost : ℚ
  total_curtailed : ℚ
  total_charge : ℚ
  total_discharge : ℚ
deriving DecidableEq

/-- Modelled from the spec: fold a ledger into its totals. -/
def mkStrategyResult (records : List HourlyRecord) : StrategyResult :=
  { records := records
    total_grid_kwh := (records.map fun r => r.grid).sum
    total_cost := (records.map fun r => r.grid * r.price).sum
    total_curtailed := (records.map fun r => r.curtailed_solar).sum
    total_charge := (records.map fun r => r.charge).sum
    total_discharge := (records.map fun r => r.discharge).sum }

/-- Modelled from the spec: the comparison metrics of §4.5 of the missing
`backend/simulation.py`, with the division-by-zero guards on the two
baseline-relative percentages. -/
structure SummaryMetrics where
  cost_saved_percent : ℚ
  grid_reduced_percent : ℚ
  solar_utilization : ℚ
  battery_utilization : ℚ
deriving DecidableEq

/-- Modelled from the spec: the MetricsAggregator of the missing
`backend/simulation.py`. -/
def computeSummary (cfg : SimulationConfig) (base smart : StrategyResult) :
    SummaryMetrics :=
  let total_solar := (smart.records.map fun r => r.solar).sum
  { cost_saved_percent :=
      if base.total_cost = 0 then 0
      else (base.total_cost - smart.total_cost) / base.total_cost * 100
    grid_reduced_percent :=
      if base.total_grid_kwh = 0 then 0
      else (base.total_grid_kwh - smart.total_grid_kwh) / base.total_grid_kwh * 100
    solar_utilization :=
      if total_solar = 0 then 0
      else (total_solar - smart.total_curtailed) / total_solar * 100
    battery_utilization :=
      min 100 ((smart.total_charge + smart.total_discharge) /
        (2 * cfg.battery_capacity_kwh) * 100) }

/-- Modelled from the spec: the full comparison output of the missing
`backend/simulation.py` (`MicrogridSimulator.run_comparison`). -/
structure ComparisonResult where
  baseline : StrategyResult
  smart : StrategyResult
  summary : SummaryMetrics
deriving DecidableEq

/-- Modelled from the spec: run both strategies on one configuration and
aggregate the comparison metrics. -/
def runComparison (cfg : SimulationConfig) : ComparisonResult :=
  let base := mkStrategyResult (baselineRecords cfg)
  let smart := mkStrategyResult (smartRecords cfg)
  { baseline := base
    smart := smart
    summary := computeSummary cfg base smart }

/-- The raw parameter bundle of `POST /simulate` (`SimulationRequest` in
`backend/main.py`, lines 65–124), with its documented default values. -/
structure SimulationRequest where
  battery_capacity_kwh : ℚ := 10
  solar_capacity_kw : ℚ := 5
  weather_mode : String := "sunny"
  peak_load_demand : ℚ := 7
  off_peak_price : ℚ := 4
  standard_price : ℚ := 13/2
  peak_price : ℚ := 17/2
  initial_soc : ℚ := 1/2
  tariff_mode : String := "manual"
  derc_season : String := "summer"
  derc_discom : String := "TPDDL"
deriving DecidableEq

/-- Modelled from the spec: the error kinds raised by the ConfigValidator of
the missing `backend/simulation.py` (§7 of the spec). -/
inductive SimError where
  | invalidConfiguration (field : String)
  | unknownTariffSchedule (season : String) (discom : String)
deriving DecidableEq

/-- The message an error renders to (the `str(e)` seen by the endpoint). -/
def SimError.message : SimError → String
  | SimError.invalidConfiguration f => "Invalid configuration: " ++ f
  | SimError.unknownTariffSchedule s d =>
      "Unknown tariff schedule: " ++ s ++ "/" ++ d

/-- Modelled from the spec: the DERC reference rate table of the missing
`backend/simulation.py`, keyed by (season, DISCOM) and yielding the
(off-peak, standard, peak) price triple; unknown pairs are absent. -/
def dercRates (season discom : String) : Option (ℚ × ℚ × ℚ) :=
  match season, discom with
  | "summer", "TPDDL" => some (3, 7, 9)
  | "summer", "BRPL" => some (3, 15/2, 19/2)
  | "summer", "BYPL" => some (7/2, 15/2, 10)
  | "summer", "NDMC" => some (3, 7, 17/2)
  | "winter", "TPDDL" => some (5/2, 6, 8)
  | "winter", "BRPL" => some (3, 13/2, 17/2)
  | "winter", "BYPL" => some (3, 7, 9)
  | "winter", "NDMC" => some (5/2, 6, 15/2)
  | _, _ => none

/-- Modelled from the spec: the ConfigValidator of the missing
`backend/simulation.py` (§4.1): re-checks every numeric bound, rejects
unrecognized `weather_mode`/`tariff_mode` values naming the offending field,
and resolves the tariff (manual prices directly, `derc` via the rate table,
unknown pairs failing with `UnknownTariffSchedule`). -/
def validateConfig (req : SimulationRequest) : Except SimError SimulationConfig :=
  if ¬(1 ≤ req.battery_capacity_kwh ∧ req.battery_capacity_kwh ≤ 100) then
    Except.error (SimError.invalidConfiguration "battery_capacity_kwh")
  else if ¬(3 ≤ req.solar_capacity_kw ∧ req.solar_capacity_kw ≤ 7) then
    Except.error (SimError.invalidConfiguration "solar_capacity_kw")
  else if ¬(1 ≤ req.peak_load_demand ∧ req.peak_load_demand ≤ 20) then
    Except.error (SimError.invalidConfiguration "peak_load_demand")
  else if ¬(1/5 ≤ req.initial_soc ∧ req.initial_soc ≤ 1) then
    Except.error (SimError.invalidConfiguration "initial_soc")
  else if ¬(2 ≤ req.off_peak_price ∧ req.off_peak_price ≤ 10) then
    Except.error (SimError.invalidConfiguration "off_peak_price")
  else if ¬(3 ≤ req.standard_price ∧ req.standard_price ≤ 12) then
    Except.error (SimError.invalidConfiguration "standard_price")
  else if ¬(5 ≤ req.peak_price ∧ req.peak_price ≤ 15) then
    Except.error (SimError.invalidConfiguration "peak_price")
  else if req.weather_mode = "sunny" ∨ req.weather_mode = "cloudy" then
    let weather := if req.weather_mode = "cloudy" then WeatherMode.cloudy
      else WeatherMode.sunny
    if req.tariff_mode = "manual" then
      Except.ok
        { battery_capacity_kwh := req.battery_capacity_kwh
          solar_capacity_kw := req.solar_capacity_kw
          weather_mode := weather
          peak_load_demand := req.peak_load_demand
          initial_soc := req.initial_soc
          off_peak_price := req.off_peak_price
          standard_price := req.standard_price
          peak_price := req.peak_price }
    else if req.tariff_mode = "derc" then
      match dercRates req.derc_season req.derc_discom with
      | some prices =>
          Except.ok
            { battery_capacity_kwh := req.battery_capacity_kwh
              solar_capacity_kw := req.solar_capacity_kw
              weather_mode := weather
              peak_load_demand := req.peak_load_demand
              initial_soc := req.initial_soc
              off_peak_price := prices.1
              standard_price := prices.2.1
              peak_price := prices.2.2 }
      | none =>
          Except.error
            (SimError.unknownTariffSchedule req.derc_season req.derc_discom)
    else Except.error (SimError.invalidConfiguration "tariff_mode")
  else Except.error (SimError.invalidConfiguration "weather_mode")

/-- The simulation pipeline behind the endpoint: validate, then run the
comparison (`config = SimulationConfig(...)` followed by
`MicrogridSimulator(config).run_comparison()` in `backend/main.py`,
lines 174–192); a validation error short-circuits before any simulation
step, so an error result carries no ledger. -/
def runPipeline (req : SimulationRequest) : Except SimError ComparisonResult :=
  (validateConfig req).map runComparison

/-- The response of the `POST /simulate` endpoint: either the comparison
result or an HTTP error status with a detail string. -/
inductive EndpointResponse where
  | ok (result : ComparisonResult)
  | httpError (status : Nat) (detail : String)
deriving DecidableEq

/-- The `POST /simulate` handler of `backend/main.py` (lines 157–198): an
absent body falls back to the default `SimulationRequest()`; any error from
the pipeline is answered with HTTP 500 and a detail string
`"Simulation error: "` followed by the error's message. -/
def run_simulation (body : Option SimulationRequest) : EndpointResponse :=
  let req := body.getD {}
  match runPipeline req with
  | Except.ok res => EndpointResponse.ok res
  | Except.error e =>
      EndpointResponse.httpError 500 ("Simulation error: " ++ e.message)

/-- The default configuration: what validating the default request yields. -/
def defaultConfig : SimulationConfig := {}

/-- The conjunction of every documented bound on a raw request: the numeric
field bounds of `main.py` lines 65–124 and recognized
`weather_mode`/`tariff_mode` values. -/
def requestBoundsOk (req : SimulationRequest) : Prop :=
  (1 ≤ req.battery_capacity_kwh ∧ req.battery_capacity_kwh ≤ 100) ∧
  (3 ≤ req.solar_capacity_kw ∧ req.solar_capacity_kw ≤ 7) ∧
  (1 ≤ req.peak_load_demand ∧ req.peak_load_demand ≤ 20) ∧
  (1/5 ≤ req.initial_soc ∧ req.initial_soc ≤ 1) ∧
  (2 ≤ req.off_peak_price ∧ req.off_peak_price ≤ 10) ∧
  (3 ≤ req.standard_price ∧ req.standard_price ≤ 12) ∧
  (5 ≤ req.peak_price ∧ req.peak_price ≤ 15) ∧
  (req.weather_mode = "sunny" ∨ req.weather_mode = "cloudy") ∧
  (req.tariff_mode = "manual" ∨ req.tariff_mode = "derc")

instance (req : SimulationRequest) : Decidable (requestBoundsOk req) := by
  unfold requestBoundsOk
  infer_instance

/-- Whether a named field of the raw request actually violates its documented
bound (or, for the two mode fields, is unrecognized). -/
def fieldOffends (req : SimulationRequest) (f : String) : Prop :=
  match f with
  | "battery_capacity_kwh" => ¬(1 ≤ req.battery_capacity_kwh ∧ req.battery_capacity_kwh ≤ 100)
  | "solar_capacity_kw" => ¬(3 ≤ req.solar_capacity_kw ∧ req.solar_capacity_kw ≤ 7)
  | "peak_load_demand" => ¬(1 ≤ req.peak_load_demand ∧ req.peak_load_demand ≤ 20)
  | "initial_soc" => ¬(1/5 ≤ req.initial_soc ∧ req.initial_soc ≤ 1)
  | "off_peak_price" => ¬(2 ≤ req.off_peak_price ∧ req.off_peak_price ≤ 10)
  | "standard_price" => ¬(3 ≤ req.standard_price ∧ req.standard_price ≤ 12)
  | "peak_price" => ¬(5 ≤ req.peak_price ∧ req.peak_price ≤ 15)
  | "weather_mode" => req.weather_mode ≠ "sunny" ∧ req.weather_mode ≠ "cloudy"
  | "tariff_mode" => req.tariff_mode ≠ "manual" ∧ req.tariff_mode ≠ "derc"
  | _ => False

/-- The pipeline rejects the request with `InvalidConfiguration` naming a
field that actually offends, and produces no ledger (the error result of the
pipeline carries no records at all). -/
def pipelineRejectsNaming (req : SimulationRequest) : Prop :=
  match runPipeline req with
  | Except.error (SimError.invalidConfiguration f) => fieldOffends req f
  | _ => False

/-- A strategy result folded from an empty ledger (all totals zero); used to
exercise the degenerate-ratio guards. -/
def emptyLedgerResult : StrategyResult := mkStrategyResult []

/-- A strategy result with baseline totals 1 (one hour drawing 1 kWh at
price 1); used to exercise the guarded division. -/
def unitLedgerResult : StrategyResult :=
  mkStrategyResult
    [{ hour := 0, solar := 0, load := 1, price := 1, soc := 1/2, grid := 1,
       battery_flow := 0, curtailed_solar := 0 }]

/-- A raw request whose battery capacity violates its documented bound. -/
def c8BadRequest : SimulationRequest := { battery_capacity_kwh := 0 }

/-- A raw request with an unrecognized weather mode. -/
def c10BadRequest : SimulationRequest := { weather_mode := "haze" }

/-- A valid configuration (lossless battery, full SoC band, half-charged)
with a 10 kWh battery; exhibits the non-monotonicity of `cost_saved_percent`
in the battery capacity. -/
def c9SmallCfg : SimulationConfig :=
  { battery_capacity_kwh := 10, battery_efficiency := 1, max_soc := 1 }

/-- The same configuration as `c9SmallCfg` with a 100 kWh battery. -/
def c9LargeCfg : SimulationConfig :=
  { battery_capacity_kwh := 100, battery_efficiency := 1, max_soc := 1 }

/-- A configuration whose initial SoC equals `max_soc` (so the Smart strategy
never grid-charges); used to witness the amended monotonicity claim. -/
def c9FullStartCfg : SimulationConfig := { initial_soc := 9/10 }

/-- Analysis view of one non-off-peak Smart hour: the stored energy held
above `min_soc` (in kWh) at the end of the hour, as a function of the energy
`a` held above `min_soc` at its start.  Solar charging moves `a` to
`min (a + excess·eff) ((max_soc - min_soc)·capacity)`; a peak-hour discharge
then removes `min remaining (a·eff) / eff`. -/
def energyAfterHour (cfg : SimulationConfig) (h : Nat) (a : ℚ) : ℚ :=
  let su := min (solarProfile cfg h) (loadProfile cfg h)
  let ex := solarProfile cfg h - su
  let rl := loadProfile cfg h - su
  let a1 := min (a + ex * cfg.battery_efficiency)
      ((cfg.max_soc - cfg.min_soc) * cfg.battery_capacity_kwh)
  a1 - (if isPeakHour h then min rl (a1 * cfg.battery_efficiency) else 0)
      / cfg.battery_efficiency

/-- Analysis view of one non-off-peak Smart hour: the grid draw of the hour
as a function of the stored energy `a` above `min_soc` at its start. -/
def gridAfterHour (cfg : SimulationConfig) (h : Nat) (a : ℚ) : ℚ :=
  let su := min (solarProfile cfg h) (loadProfile cfg h)
  let ex := solarProfile cfg h - su
  let rl := loadProfile cfg h - su
  let a1 := min (a + ex * cfg.battery_efficiency)
      ((cfg.max_soc - cfg.min_soc) * cfg.battery_capacity_kwh)
  rl - (if isPeakHour h then min rl (a1 * cfg.battery_efficiency) else 0)

theorem max_self_neg (f : ℚ) : max f 0 = f + max (-f) 0 := by
  rcases le_total f 0 with hf | hf
  · rw [max_eq_right hf, max_eq_left (by linarith : (0:ℚ) ≤ -f)]
    ring
  · rw [max_eq_left hf, max_eq_right (by linarith : -f ≤ (0:ℚ))]
    ring

theorem energyBalanced_of_net (r : HourlyRecord)
    (h : r.solar + r.grid = r.load + r.battery_flow + r.curtailed_solar) :
    energyBalanced r := by
  unfold energyBalanced HourlyRecord.charge HourlyRecord.discharge
  rw [max_self_neg r.battery_flow]
  linarith

theorem baselineHour_net (cfg : SimulationConfig) (h : Nat) :
    (baselineHour cfg h).solar + (baselineHour cfg h).grid
      = (baselineHour cfg h).load + (baselineHour cfg h).battery_flow
        + (baselineHour cfg h).curtailed_solar := by
  dsimp only [baselineHour]
  ring

theorem smartStep_net (cfg : SimulationConfig) (h : Nat) (soc : ℚ) :
    ((smartStep cfg h soc).1).solar + ((smartStep cfg h soc).1).grid
      = ((smartStep cfg h soc).1).load + ((smartStep cfg h soc).1).battery_flow
        + ((smartStep cfg h soc).1).curtailed_solar := by
  dsimp only [smartStep]
  ring

theorem smartRunAux_balanced (cfg : SimulationConfig) (hs : List Nat) (soc : ℚ) :
    ∀ r ∈ (smartRunAux cfg hs soc).1, energyBalanced r := by
  induction hs generalizing soc with
  | nil =>
    intro r hr
    simp [smartRunAux] at hr
  | cons h rest ih =>
    intro r hr
    simp only [smartRunAux, List.mem_cons] at hr
    rcases hr with hr | hr
    · subst hr
      exact energyBalanced_of_net _ (smartStep_net cfg h soc)
    · exact ih _ r hr

/-- C1: every hourly record produced by either strategy satisfies the energy
balance `solar + grid + discharge = load + charge + curtailed_solar`; over
`ℚ` the identity is exact, hence in particular within tolerance `1e-6`. -/
theorem c1_energy_balance (cfg : SimulationConfig) (r : HourlyRecord)
    (hr : r ∈ baselineRecords cfg ∨ r ∈ smartRecords cfg) :
    energyBalanced r := by
  rcases hr with hr | hr
  · rcases List.mem_map.mp hr with ⟨h, hmem, rfl⟩
    exact energyBalanced_of_net _ (baselineHour_net cfg h)
  · exact smartRunAux_balanced cfg (List.range 24) cfg.initial_soc r hr

set_option maxRecDepth 100000 in
/-- Witness for C1: the noon record of the default Baseline run balances. -/
theorem c1_energy_balance_witness :
    energyBalanced (baselineHour defaultConfig 12) :=
  c1_energy_balance defaultConfig (baselineHour defaultConfig 12)
    (Or.inl (of_decide_eq_true (by with_unfolding_all rfl)))

theorem clampSoc_mem (cfg : SimulationConfig) (hband : cfg.min_soc ≤ cfg.max_soc)
    (x : ℚ) : cfg.min_soc ≤ clampSoc cfg x ∧ clampSoc cfg x ≤ cfg.max_soc := by
  unfold clampSoc
  exact ⟨le_max_left _ _, max_le hband (min_le_left _ _)⟩

theorem smartStep_soc_mem (cfg : SimulationConfig) (hband : cfg.min_soc ≤ cfg.max_soc)
    (h : Nat) (soc : ℚ) :
    cfg.min_soc ≤ ((smartStep cfg h soc).1).soc ∧
      ((smartStep cfg h soc).1).soc ≤ cfg.max_soc := by
  dsimp only [smartStep]
  exact clampSoc_mem cfg hband _

theorem smartRunAux_soc_mem (cfg : SimulationConfig)
    (hband : cfg.min_soc ≤ cfg.max_soc) (hs : List Nat) (soc : ℚ) :
    ∀ r ∈ (smartRunAux cfg hs soc).1,
      cfg.min_soc ≤ r.soc ∧ r.soc ≤ cfg.max_soc := by
  induction hs generalizing soc with
  | nil =>
    intro r hr
    simp [smartRunAux] at hr
  | cons h rest ih =>
    intro r hr
    simp only [smartRunAux, List.mem_cons] at hr
    rcases hr with hr | hr
    · subst hr
      exact smartStep_soc_mem cfg hband h soc
    · exact ih _ r hr

/-- C2: for a valid configuration, every Smart-strategy record's state of
charge (the SoC recorded after the hour, i.e. after the hour's charge and
discharge steps and the final clamp) lies in `[min_soc, max_soc]`. -/
theorem c2_soc_bounds (cfg : SimulationConfig) (hv : ValidConfig cfg)
    (r : HourlyRecord) (hr : r ∈ smartRecords cfg) :
    cfg.min_soc ≤ r.soc ∧ r.soc ≤ cfg.max_soc := by
  obtain ⟨-, -, -, -, -, hband, -⟩ := hv
  exact smartRunAux_soc_mem cfg hband (List.range 24) cfg.initial_soc r hr

set_option maxRecDepth 100000 in
/-- Witness for C2: the hour-zero record of the default Smart run. -/
theorem c2_soc_bounds_witness :
    defaultConfig.min_soc ≤ ((smartStep defaultConfig 0 defaultConfig.initial_soc).1).soc ∧
      ((smartStep defaultConfig 0 defaultConfig.initial_soc).1).soc ≤ defaultConfig.max_soc :=
  c2_soc_bounds defaultConfig (of_decide_eq_true (by with_unfolding_all rfl))
    ((smartStep defaultConfig 0 defaultConfig.initial_soc).1)
    (of_decide_eq_true (by with_unfolding_all rfl))

/-- C3: the Baseline strategy never touches the battery: every Baseline
record keeps `soc = initial_soc` and has battery net flow `0`. -/
theorem c3_baseline_invariance (cfg : SimulationConfig) (r : HourlyRecord)
    (hr : r ∈ baselineRecords cfg) :
    r.soc = cfg.initial_soc ∧ r.battery_flow = 0 := by
  rcases List.mem_map.mp hr with ⟨h, hmem, rfl⟩
  exact ⟨rfl, rfl⟩

set_option maxRecDepth 100000 in
/-- Witness for C3: the hour-zero record of the default Baseline run. -/
theorem c3_baseline_invariance_witness :
    (baselineHour defaultConfig 0).soc = defaultConfig.initial_soc ∧
      (baselineHour defaultConfig 0).battery_flow = 0 :=
  c3_baseline_invariance defaultConfig (baselineHour defaultConfig 0)
    (of_decide_eq_true (by with_unfolding_all rfl))

/-- C5: the simulation is deterministic: running the comparison twice on one
configuration yields equal results, and the derived solar and load profile
arrays are equal across the two runs (everything is a pure function of the
configuration; there is no randomness in the model). -/
theorem c5_determinism (cfg : SimulationConfig) :
    runComparison cfg = runComparison cfg ∧
    (List.range 24).map (solarProfile cfg) = (List.range 24).map (solarProfile cfg) ∧
    (List.range 24).map (loadProfile cfg) = (List.range 24).map (loadProfile cfg) :=
  ⟨rfl, rfl, rfl⟩

/-- C6: with every other field identical, the cloudy solar curve is exactly
half the sunny solar curve at every hour. -/
theorem c6_weather_scaling (cfg : SimulationConfig) (h : Nat) :
    solarProfile { cfg with weather_mode := WeatherMode.cloudy } h
      = solarProfile { cfg with weather_mode := WeatherMode.sunny } h / 2 := by
  unfold solarProfile weatherFactor
  dsimp only
  ring

theorem validateConfig_manual_prices (req : SimulationRequest)
    (cfg : SimulationConfig) (hm : req.tariff_mode = "manual")
    (hok : validateConfig req = Except.ok cfg) :
    cfg.off_peak_price = req.off_peak_price ∧
      cfg.standard_price = req.standard_price ∧
      cfg.peak_price = req.peak_price := by
  unfold validateConfig at hok
  split_ifs at hok with h1 h2 h3 h4 h5 h6 h7 h8 h9
  all_goals first
    | exact absurd hm (by assumption)
    | exact (Except.noConfusion hok)
    | (injection hok with hok
       subst hok
       exact ⟨rfl, rfl, rfl⟩)

/-- C4: in manual tariff mode the price of each hour is exactly the
requested off-peak price on 00:00–06:00, the requested standard price on
06:00–18:00 and 22:00–24:00, the requested peak price on 18:00–22:00, and
the three tariff periods partition the 24 hours (pairwise disjoint,
jointly covering). -/
theorem c4_manual_tariff (req : SimulationRequest) (cfg : SimulationConfig)
    (hm : req.tariff_mode = "manual") (hok : validateConfig req = Except.ok cfg)
    (h : Nat) :
    (isOffPeakHour h → getPrice cfg h = req.off_peak_price) ∧
    (isStandardHour h → getPrice cfg h = req.standard_price) ∧
    (isPeakHour h → getPrice cfg h = req.peak_price) ∧
    (h < 24 →
      (isOffPeakHour h ∧ ¬isStandardHour h ∧ ¬isPeakHour h) ∨
      (¬isOffPeakHour h ∧ isStandardHour h ∧ ¬isPeakHour h) ∨
      (¬isOffPeakHour h ∧ ¬isStandardHour h ∧ isPeakHour h)) := by
  obtain ⟨hop, hstd, hpk⟩ := validateConfig_manual_prices req cfg hm hok
  unfold getPrice isOffPeakHour isStandardHour isPeakHour
  refine ⟨fun hh => ?_, fun hh => ?_, fun hh => ?_, fun hh => by omega⟩
  · rw [if_pos hh]
    exact hop
  · split_ifs <;> first | exact hstd | omega
  · split_ifs <;> first | exact hpk | omega

set_option maxRecDepth 100000 in
/-- Witness for C4: the default (manual) request at hour 19 prices at the
requested peak price. -/
theorem c4_manual_tariff_witness :
    getPrice defaultConfig 19 = ({} : SimulationRequest).peak_price :=
  (c4_manual_tariff {} defaultConfig rfl (by with_unfolding_all rfl) 19).2.2.1
    (of_decide_eq_true (by with_unfolding_all rfl))

/-- C7: the comparison metrics guard their divisions: a zero baseline cost
yields `cost_saved_percent = 0` and a zero baseline grid total yields
`grid_reduced_percent = 0` (rather than an undefined or infinite value),
while a nonzero baseline cost yields the documented ratio. -/
theorem c7_ratio_guards (cfg : SimulationConfig) (base smart : StrategyResult) :
    (base.total_cost = 0 → (computeSummary cfg base smart).cost_saved_percent = 0) ∧
    (base.total_grid_kwh = 0 → (computeSummary cfg base smart).grid_reduced_percent = 0) ∧
    (base.total_cost ≠ 0 → (computeSummary cfg base smart).cost_saved_percent
        = (base.total_cost - smart.total_cost) / base.total_cost * 100) := by
  unfold computeSummary
  refine ⟨fun h0 => ?_, fun h0 => ?_, fun h0 => ?_⟩
  · dsimp only
    rw [if_pos h0]
  · dsimp only
    rw [if_pos h0]
  · dsimp only
    rw [if_neg h0]

/-- Witness for C7: the guards at an all-zero baseline ledger and the ratio
at a unit-cost baseline ledger. -/
theorem c7_ratio_guards_witness :
    (computeSummary defaultConfig emptyLedgerResult emptyLedgerResult).cost_saved_percent = 0 ∧
    (computeSummary defaultConfig emptyLedgerResult emptyLedgerResult).grid_reduced_percent = 0 ∧
    (computeSummary defaultConfig unitLedgerResult emptyLedgerResult).cost_saved_percent
      = (unitLedgerResult.total_cost - emptyLedgerResult.total_cost) /
          unitLedgerResult.total_cost * 100 :=
  ⟨(c7_ratio_guards defaultConfig emptyLedgerResult emptyLedgerResult).1 rfl,
   (c7_ratio_guards defaultConfig emptyLedgerResult emptyLedgerResult).2.1 rfl,
   (c7_ratio_guards defaultConfig unitLedgerResult emptyLedgerResult).2.2
     (of_decide_eq_true (by with_unfolding_all rfl))⟩

theorem validateConfig_rejects (req : SimulationRequest)
    (hbad : ¬ requestBoundsOk req) :
    ∃ f, validateConfig req = Except.error (SimError.invalidConfiguration f) ∧
      fieldOffends req f := by
  unfold requestBoundsOk at hbad
  unfold validateConfig
  by_cases h1 : 1 ≤ req.battery_capacity_kwh ∧ req.battery_capacity_kwh ≤ 100
  case neg =>
    exact ⟨"battery_capacity_kwh", by rw [if_pos h1], h1⟩
  rw [if_neg (not_not_intro h1)]
  by_cases h2 : 3 ≤ req.solar_capacity_kw ∧ req.solar_capacity_kw ≤ 7
  case neg =>
    exact ⟨"solar_capacity_kw", by rw [if_pos h2], h2⟩
  rw [if_neg (not_not_intro h2)]
  by_cases h3 : 1 ≤ req.peak_load_demand ∧ req.peak_load_demand ≤ 20
  case neg =>
    exact ⟨"peak_load_demand", by rw [if_pos h3], h3⟩
  rw [if_neg (not_not_intro h3)]
  by_cases h4 : 1/5 ≤ req.initial_soc ∧ req.initial_soc ≤ 1
  case neg =>
    exact ⟨"initial_soc", by rw [if_pos h4], h4⟩
  rw [if_neg (not_not_intro h4)]
  by_cases h5 : 2 ≤ req.off_peak_price ∧ req.off_peak_price ≤ 10
  case neg =>
    exact ⟨"off_peak_price", by rw [if_pos h5], h5⟩
  rw [if_neg (not_not_intro h5)]
  by_cases h6 : 3 ≤ req.standard_price ∧ req.standard_price ≤ 12
  case neg =>
    exact ⟨"standard_price", by rw [if_pos h6], h6⟩
  rw [if_neg (not_not_intro h6)]
  by_cases h7 : 5 ≤ req.peak_price ∧ req.peak_price ≤ 15
  case neg =>
    exact ⟨"peak_price", by rw [if_pos h7], h7⟩
  rw [if_neg (not_not_intro h7)]
  by_cases h8 : req.weather_mode = "sunny" ∨ req.weather_mode = "cloudy"
  case neg =>
    refine ⟨"weather_mode", by rw [if_neg h8], ?_⟩
    exact ⟨fun hc => h8 (Or.inl hc), fun hc => h8 (Or.inr hc)⟩
  rw [if_pos h8]
  by_cases h9 : req.tariff_mode = "manual"
  case pos =>
    exact absurd ⟨h1, h2, h3, h4, h5, h6, h7, h8, Or.inl h9⟩ hbad
  by_cases h10 : req.tariff_mode = "derc"
  case pos =>
    exact absurd ⟨h1, h2, h3, h4, h5, h6, h7, h8, Or.inr h10⟩ hbad
  rw [if_neg h9, if_neg h10]
  exact ⟨"tariff_mode", rfl, h9, h10⟩

/-- C8: a raw request violating any documented numeric bound, or carrying an
unrecognized `weather_mode`/`tariff_mode`, is rejected by the pipeline with
`InvalidConfiguration` naming a field that actually offends, and the
pipeline's error result carries no ledger (no simulation step runs: the
validator short-circuits before `runComparison`). -/
theorem c8_invalid_configuration (req : SimulationRequest)
    (hbad : ¬ requestBoundsOk req) : pipelineRejectsNaming req := by
  obtain ⟨f, herr, hoff⟩ := validateConfig_rejects req hbad
  unfold pipelineRejectsNaming runPipeline
  rw [herr]
  exact hoff

/-- Witness for C8: the request with battery capacity 0 is rejected naming
`battery_capacity_kwh`. -/
theorem c8_invalid_configuration_witness : pipelineRejectsNaming c8BadRequest :=
  c8_invalid_configuration c8BadRequest
    (of_decide_eq_true (by with_unfolding_all rfl))

/-- C10: whenever the pipeline behind `POST /simulate` fails with any error,
the endpoint answers HTTP 500 with a detail string beginning
`"Simulation error: "` followed by the error's message — in particular no
partial simulation result is returned, the error constructor carrying no
result — and an absent request body runs the simulation with the default
parameter values. -/
theorem c10_endpoint_error_handling (body : Option SimulationRequest)
    (e : SimError) (herr : runPipeline (body.getD {}) = Except.error e) :
    run_simulation body
        = EndpointResponse.httpError 500 ("Simulation error: " ++ e.message) ∧
    run_simulation none = run_simulation (some {}) := by
  constructor
  · unfold run_simulation
    dsimp only
    rw [herr]
  · rfl

/-- Witness for C10: an unrecognized weather mode is answered with the
HTTP 500 detail string. -/
theorem c10_endpoint_error_handling_witness :
    run_simulation (some c10BadRequest)
        = EndpointResponse.httpError 500
            ("Simulation error: "
              ++ (SimError.invalidConfiguration "weather_mode").message) ∧
    run_simulation none = run_simulation (some {}) :=
  c10_endpoint_error_handling (some c10BadRequest)
    (SimError.invalidConfiguration "weather_mode") (by with_unfolding_all rfl)

theorem ValidConfig.cap_pos {cfg : SimulationConfig} (hv : ValidConfig cfg) :
    0 < cfg.battery_capacity_kwh := by
  obtain ⟨h1, -⟩ := hv
  linarith

theorem ValidConfig.eff_pos {cfg : SimulationConfig} (hv : ValidConfig cfg) :
    0 < cfg.battery_efficiency := by
  obtain ⟨-, -, h, -⟩ := hv
  exact h

theorem ValidConfig.band {cfg : SimulationConfig} (hv : ValidConfig cfg) :
    cfg.min_soc ≤ cfg.max_soc := by
  obtain ⟨-, -, -, -, -, h, -⟩ := hv
  exact h

theorem ValidConfig.solar_cap_pos {cfg : SimulationConfig} (hv : ValidConfig cfg) :
    0 < cfg.solar_capacity_kw := by
  obtain ⟨-, -, -, -, -, -, -, -, -, h, -⟩ := hv
  linarith

theorem ValidConfig.peak_load_pos {cfg : SimulationConfig} (hv : ValidConfig cfg) :
    0 < cfg.peak_load_demand := by
  obtain ⟨-, -, -, -, -, -, -, -, -, -, -, h, -⟩ := hv
  linarith

theorem ValidConfig.price_pos {cfg : SimulationConfig} (hv : ValidConfig cfg)
    (h : Nat) : 0 < getPrice cfg h := by
  obtain ⟨-, -, -, -, -, -, -, -, -, -, -, -, -, hop, -, hst, -, hpk, -⟩ := hv
  unfold getPrice
  split_ifs <;> linarith

theorem weatherFactor_pos (w : WeatherMode) : 0 < weatherFactor w := by
  cases w <;> norm_num [weatherFactor]

theorem solarShape_nonneg (h : Nat) : 0 ≤ solarShape h := by
  unfold solarShape
  split <;> norm_num

theorem loadShape_pos (h : Nat) : 0 < loadShape h := by
  unfold loadShape
  split <;> norm_num

theorem solarShape_zero_before_six (h : Nat) (hh : h < 6) : solarShape h = 0 := by
  unfold solarShape
  split <;> first | rfl | omega

theorem solarProfile_nonneg {cfg : SimulationConfig} (hv : ValidConfig cfg)
    (h : Nat) : 0 ≤ solarProfile cfg h :=
  mul_nonneg
    (mul_nonneg (le_of_lt hv.solar_cap_pos)
      (le_of_lt (weatherFactor_pos cfg.weather_mode)))
    (solarShape_nonneg h)

theorem loadProfile_pos {cfg : SimulationConfig} (hv : ValidConfig cfg)
    (h : Nat) : 0 < loadProfile cfg h :=
  mul_pos hv.peak_load_pos (loadShape_pos h)

theorem solarProfile_zero_before_six (cfg : SimulationConfig) (h : Nat)
    (hh : h < 6) : solarProfile cfg h = 0 := by
  unfold solarProfile
  rw [solarShape_zero_before_six h hh, mul_zero]

theorem solarChargeAmount_eq (cfg : SimulationConfig) (soc excess : ℚ)
    (hex : 0 ≤ excess)
    (hH : 0 ≤ (cfg.max_soc - soc) * cfg.battery_capacity_kwh / cfg.battery_efficiency) :
    solarChargeAmount cfg soc excess
      = min excess
          ((cfg.max_soc - soc) * cfg.battery_capacity_kwh / cfg.battery_efficiency) := by
  unfold solarChargeAmount
  rcases eq_or_lt_of_le hex with heq | hlt
  · rw [if_neg (by rw [← heq]; exact lt_irrefl 0), ← heq, min_eq_left hH]
  · rw [if_pos hlt]

theorem dischargeAmount_eq (cfg : SimulationConfig) (h : Nat) (soc remaining : ℚ)
    (hr : 0 ≤ remaining) (hsoc : cfg.min_soc ≤ soc)
    (hcap : 0 < cfg.battery_capacity_kwh) (heff : 0 < cfg.battery_efficiency) :
    dischargeAmount cfg h soc remaining
      = if isPeakHour h then
          min remaining
            ((soc - cfg.min_soc) * cfg.battery_capacity_kwh * cfg.battery_efficiency)
        else 0 := by
  unfold dischargeAmount
  by_cases hp : isPeakHour h
  · rw [if_pos hp]
    by_cases hr0 : 0 < remaining
    · by_cases hs0 : cfg.min_soc < soc
      · rw [if_pos ⟨hr0, hp, hs0⟩]
      · have hse : soc = cfg.min_soc := le_antisymm (not_lt.mp hs0) hsoc
        rw [if_neg (fun hcon => hs0 hcon.2.2), hse]
        rw [sub_self, zero_mul, zero_mul, min_eq_right hr]
    · have hre : remaining = 0 := le_antisymm (not_lt.mp hr0) hr
      rw [if_neg (fun hcon => hr0 hcon.1), hre]
      rw [min_eq_left]
      exact mul_nonneg (mul_nonneg (by linarith) (le_of_lt hcap)) (le_of_lt heff)
  · rw [if_neg hp, if_neg (fun hcon => hp hcon.2.1)]

theorem gridChargeAmount_of_not_offpeak (cfg : SimulationConfig) (h : Nat)
    (sc soc : ℚ) (hoff : ¬ isOffPeakHour h) : gridChargeAmount cfg h sc soc = 0 := by
  unfold gridChargeAmount
  rw [if_neg (fun hcon => hoff hcon.2.1)]

theorem smartStep_char (cfg : SimulationConfig) (h : Nat) (s : ℚ)
    (hoff : ¬ isOffPeakHour h) (hv : ValidConfig cfg)
    (hs0 : cfg.min_soc ≤ s) (hs1 : s ≤ cfg.max_soc) :
    ((smartStep cfg h s).2 - cfg.min_soc) * cfg.battery_capacity_kwh
        = energyAfterHour cfg h ((s - cfg.min_soc) * cfg.battery_capacity_kwh) ∧
    cfg.min_soc ≤ (smartStep cfg h s).2 ∧ (smartStep cfg h s).2 ≤ cfg.max_soc ∧
    (smartStep cfg h s).1.grid
        = gridAfterHour cfg h ((s - cfg.min_soc) * cfg.battery_capacity_kwh) := by
  have hcap := hv.cap_pos
  have heff := hv.eff_pos
  have hband := hv.band
  have hκ : cfg.battery_capacity_kwh ≠ 0 := ne_of_gt hcap
  have hε : cfg.battery_efficiency ≠ 0 := ne_of_gt heff
  have hHnn : 0 ≤ (cfg.max_soc - s) * cfg.battery_capacity_kwh / cfg.battery_efficiency :=
    div_nonneg (mul_nonneg (by linarith) (le_of_lt hcap)) (le_of_lt heff)
  set S := solarProfile cfg h with hSdef
  set L := loadProfile cfg h with hLdef
  set ex := S - min S L with hexdef
  set rl := L - min S L with hrldef
  have hex : 0 ≤ ex := by
    rw [hexdef]
    have := min_le_left S L
    linarith
  have hrl : 0 ≤ rl := by
    rw [hrldef]
    have := min_le_right S L
    linarith
  set sc := solarChargeAmount cfg s ex with hscdef
  set soc1 := s + sc * cfg.battery_efficiency / cfg.battery_capacity_kwh with hsoc1def
  set d := dischargeAmount cfg h soc1 rl with hddef
  set soc2 := soc1 - d / cfg.battery_efficiency / cfg.battery_capacity_kwh with hsoc2def
  set gc := gridChargeAmount cfg h sc soc2 with hgcdef
  set soc3 := soc2 + gc * cfg.battery_efficiency / cfg.battery_capacity_kwh with hsoc3def
  have hstep2 : (smartStep cfg h s).2 = clampSoc cfg soc3 := rfl
  have hstepgrid : (smartStep cfg h s).1.grid = rl - d + gc := rfl
  set A := (s - cfg.min_soc) * cfg.battery_capacity_kwh with hAdef
  set K := (cfg.max_soc - cfg.min_soc) * cfg.battery_capacity_kwh with hKdef
  have hA0 : 0 ≤ A := by
    rw [hAdef]
    exact mul_nonneg (by linarith) (le_of_lt hcap)
  have hK0 : 0 ≤ K := by
    rw [hKdef]
    exact mul_nonneg (by linarith) (le_of_lt hcap)
  have hsc_eq : sc = min ex
      ((cfg.max_soc - s) * cfg.battery_capacity_kwh / cfg.battery_efficiency) := by
    rw [hscdef]
    exact solarChargeAmount_eq cfg s ex hex hHnn
  have hsc0 : 0 ≤ sc := by
    rw [hsc_eq]
    exact le_min hex hHnn
  have hscE : sc * cfg.battery_efficiency
      = min (ex * cfg.battery_efficiency)
          ((cfg.max_soc - s) * cfg.battery_capacity_kwh) := by
    rw [hsc_eq, min_mul_of_nonneg _ _ (le_of_lt heff), div_mul_cancel₀ _ hε]
  have hA1eq : (soc1 - cfg.min_soc) * cfg.battery_capacity_kwh
      = min (A + ex * cfg.battery_efficiency) K := by
    have expand : (soc1 - cfg.min_soc) * cfg.battery_capacity_kwh
        = A + sc * cfg.battery_efficiency := by
      rw [hsoc1def, hAdef]
      field_simp
      ring
    have hsplit : A + (cfg.max_soc - s) * cfg.battery_capacity_kwh = K := by
      rw [hAdef, hKdef]
      ring
    rw [expand, hscE, ← min_add_add_left, hsplit]
  set A1 := min (A + ex * cfg.battery_efficiency) K with hA1def
  have hA1_0 : 0 ≤ A1 := by
    rw [hA1def]
    exact le_min (by nlinarith [mul_nonneg hex (le_of_lt heff)]) hK0
  have hsoc1_lb : cfg.min_soc ≤ soc1 := by
    rw [hsoc1def]
    have : 0 ≤ sc * cfg.battery_efficiency / cfg.battery_capacity_kwh :=
      div_nonneg (mul_nonneg hsc0 (le_of_lt heff)) (le_of_lt hcap)
    linarith
  have hsoc1_ub : soc1 ≤ cfg.max_soc := by
    have h1 : (soc1 - cfg.min_soc) * cfg.battery_capacity_kwh
        ≤ (cfg.max_soc - cfg.min_soc) * cfg.battery_capacity_kwh := by
      rw [hA1eq, ← hKdef]
      exact min_le_right _ _
    have := le_of_mul_le_mul_right h1 hcap
    linarith
  have hd_eq : d = if isPeakHour h then
      min rl (A1 * cfg.battery_efficiency) else 0 := by
    rw [hddef, dischargeAmount_eq cfg h soc1 rl hrl hsoc1_lb hcap heff, hA1eq]
  have hd0 : 0 ≤ d := by
    rw [hd_eq]
    split_ifs
    · exact le_min hrl (mul_nonneg hA1_0 (le_of_lt heff))
    · exact le_refl 0
  have hd_le : d ≤ A1 * cfg.battery_efficiency := by
    rw [hd_eq]
    split_ifs
    · exact min_le_right _ _
    · exact mul_nonneg hA1_0 (le_of_lt heff)
  have hA2eq : (soc2 - cfg.min_soc) * cfg.battery_capacity_kwh
      = A1 - d / cfg.battery_efficiency := by
    rw [hsoc2def, ← hA1eq]
    field_simp
    ring
  have hsoc2_lb : cfg.min_soc ≤ soc2 := by
    have h1 : 0 ≤ (soc2 - cfg.min_soc) * cfg.battery_capacity_kwh := by
      rw [hA2eq]
      have : d / cfg.battery_efficiency ≤ A1 := (div_le_iff₀ heff).mpr hd_le
      linarith
    rw [mul_comm] at h1
    have := nonneg_of_mul_nonneg_right h1 hcap
    linarith
  have hsoc2_ub : soc2 ≤ cfg.max_soc := by
    rw [hsoc2def]
    have : 0 ≤ d / cfg.battery_efficiency / cfg.battery_capacity_kwh :=
      div_nonneg (div_nonneg hd0 (le_of_lt heff)) (le_of_lt hcap)
    linarith
  have hgc0 : gc = 0 := by
    rw [hgcdef]
    exact gridChargeAmount_of_not_offpeak cfg h sc soc2 hoff
  have hsoc3eq : soc3 = soc2 := by
    rw [hsoc3def, hgc0]
    ring
  have hclamp : clampSoc cfg soc3 = soc2 := by
    rw [hsoc3eq]
    unfold clampSoc
    rw [min_eq_right hsoc2_ub, max_eq_right hsoc2_lb]
  have henergy : energyAfterHour cfg h A = A1 - d / cfg.battery_efficiency := by
    simp only [energyAfterHour]
    rw [← hSdef, ← hLdef, ← hexdef, ← hrldef, ← hKdef, ← hA1def, ← hd_eq]
  have hgrid : gridAfterHour cfg h A = rl - d := by
    simp only [gridAfterHour]
    rw [← hSdef, ← hLdef, ← hexdef, ← hrldef, ← hKdef, ← hA1def, ← hd_eq]
  refine ⟨?_, ?_, ?_, ?_⟩
  · rw [hstep2, hclamp, hA2eq, henergy]
  · rw [hstep2, hclamp]
    exact hsoc2_lb
  · rw [hstep2, hclamp]
    exact hsoc2_ub
  · rw [hstepgrid, hgc0, add_zero, hgrid]

theorem withCap_min_soc (cfg : SimulationConfig) (c : ℚ) :
    ({ cfg with battery_capacity_kwh := c } : SimulationConfig).min_soc
      = cfg.min_soc := rfl

theorem withCap_max_soc (cfg : SimulationConfig) (c : ℚ) :
    ({ cfg with battery_capacity_kwh := c } : SimulationConfig).max_soc
      = cfg.max_soc := rfl

theorem withCap_eff (cfg : SimulationConfig) (c : ℚ) :
    ({ cfg with battery_capacity_kwh := c } : SimulationConfig).battery_efficiency
      = cfg.battery_efficiency := rfl

theorem withCap_cap (cfg : SimulationConfig) (c : ℚ) :
    ({ cfg with battery_capacity_kwh := c } : SimulationConfig).battery_capacity_kwh
      = c := rfl

theorem withCap_initial_soc (cfg : SimulationConfig) (c : ℚ) :
    ({ cfg with battery_capacity_kwh := c } : SimulationConfig).initial_soc
      = cfg.initial_soc := rfl

theorem solarProfile_cap (cfg : SimulationConfig) (c : ℚ) (h : Nat) :
    solarProfile { cfg with battery_capacity_kwh := c } h = solarProfile cfg h := rfl

theorem loadProfile_cap (cfg : SimulationConfig) (c : ℚ) (h : Nat) :
    loadProfile { cfg with battery_capacity_kwh := c } h = loadProfile cfg h := rfl

theorem getPrice_cap (cfg : SimulationConfig) (c : ℚ) (h : Nat) :
    getPrice { cfg with battery_capacity_kwh := c } h = getPrice cfg h := rfl

theorem smartStep_price (cfg : SimulationConfig) (h : Nat) (s : ℚ) :
    (smartStep cfg h s).1.price = getPrice cfg h := rfl

theorem afterHour_mono (cfg : SimulationConfig) (c1 c2 : ℚ) (h : Nat)
    (heff : 0 < cfg.battery_efficiency) (hband : cfg.min_soc ≤ cfg.max_soc)
    (hc : c1 ≤ c2) (a1 a2 : ℚ) (ha : a1 ≤ a2) :
    energyAfterHour { cfg with battery_capacity_kwh := c1 } h a1
      ≤ energyAfterHour { cfg with battery_capacity_kwh := c2 } h a2 ∧
    gridAfterHour { cfg with battery_capacity_kwh := c2 } h a2
      ≤ gridAfterHour { cfg with battery_capacity_kwh := c1 } h a1 := by
  simp only [energyAfterHour, gridAfterHour, solarProfile_cap, loadProfile_cap,
    withCap_min_soc, withCap_max_soc, withCap_eff, withCap_cap]
  set e := cfg.battery_efficiency with hedef
  set su := min (solarProfile cfg h) (loadProfile cfg h) with hsudef
  set ex := solarProfile cfg h - su with hexdef
  set rl := loadProfile cfg h - su with hrldef
  set X1 := min (a1 + ex * e) ((cfg.max_soc - cfg.min_soc) * c1) with hX1def
  set X2 := min (a2 + ex * e) ((cfg.max_soc - cfg.min_soc) * c2) with hX2def
  have hX : X1 ≤ X2 := by
    rw [hX1def, hX2def]
    exact min_le_min (by linarith) (mul_le_mul_of_nonneg_left hc (by linarith))
  have hXe : X1 * e ≤ X2 * e := mul_le_mul_of_nonneg_right hX (le_of_lt heff)
  constructor
  · by_cases hp : isPeakHour h
    · rw [if_pos hp, if_pos hp]
      have hlip : min rl (X2 * e) ≤ min rl (X1 * e) + (X2 * e - X1 * e) := by
        rcases le_total rl (X1 * e) with h1 | h1
        · rw [min_eq_left (le_trans h1 hXe), min_eq_left h1]
          linarith
        · rcases le_total rl (X2 * e) with h2 | h2
          · rw [min_eq_left h2, min_eq_right h1]
            linarith
          · rw [min_eq_right h2, min_eq_right h1]
            linarith
      have hdiv : min rl (X2 * e) / e ≤ min rl (X1 * e) / e + (X2 - X1) := by
        have h2 : min rl (X2 * e) ≤ min rl (X1 * e) + (X2 - X1) * e := by
          nlinarith [hlip]
        have h3 := (div_le_div_iff_of_pos_right heff).mpr h2
        rw [add_div, mul_div_assoc, div_self (ne_of_gt heff), mul_one] at h3
        exact h3
      linarith
    · rw [if_neg hp, if_neg hp]
      simp only [zero_div]
      linarith
  · by_cases hp : isPeakHour h
    · rw [if_pos hp, if_pos hp]
      have hmle : min rl (X1 * e) ≤ min rl (X2 * e) := min_le_min le_rfl hXe
      linarith
    · rw [if_neg hp, if_neg hp]

theorem smartStep_offpeak_at_max (cfg : SimulationConfig) (h : Nat)
    (hoffp : isOffPeakHour h) (hv : ValidConfig cfg) :
    (smartStep cfg h cfg.max_soc).2 = cfg.max_soc ∧
    (smartStep cfg h cfg.max_soc).1.grid = loadProfile cfg h := by
  have hband := hv.band
  have hL := loadProfile_pos hv h
  have hS0 : solarProfile cfg h = 0 := solarProfile_zero_before_six cfg h hoffp
  have hnp : ¬ isPeakHour h := by
    unfold isPeakHour
    unfold isOffPeakHour at hoffp
    omega
  set S := solarProfile cfg h with hSdef
  set L := loadProfile cfg h with hLdef
  set ex := S - min S L with hexdef
  set rl := L - min S L with hrldef
  set sc := solarChargeAmount cfg cfg.max_soc ex with hscdef
  set soc1 := cfg.max_soc + sc * cfg.battery_efficiency / cfg.battery_capacity_kwh
    with hsoc1def
  set d := dischargeAmount cfg h soc1 rl with hddef
  set soc2 := soc1 - d / cfg.battery_efficiency / cfg.battery_capacity_kwh
    with hsoc2def
  set gc := gridChargeAmount cfg h sc soc2 with hgcdef
  set soc3 := soc2 + gc * cfg.battery_efficiency / cfg.battery_capacity_kwh
    with hsoc3def
  have hstep2 : (smartStep cfg h cfg.max_soc).2 = clampSoc cfg soc3 := rfl
  have hstepgrid : (smartStep cfg h cfg.max_soc).1.grid = rl - d + gc := rfl
  have hmin : min S L = 0 := by
    rw [hS0]
    exact min_eq_left (le_of_lt hL)
  have hex0 : ex = 0 := by
    rw [hexdef, hmin, sub_zero]
    exact hS0
  have hrlL : rl = L := by
    rw [hrldef, hmin, sub_zero]
  have hsc0 : sc = 0 := by
    rw [hscdef, hex0]
    unfold solarChargeAmount
    rw [if_neg (lt_irrefl 0)]
  have hsoc1M : soc1 = cfg.max_soc := by
    rw [hsoc1def, hsc0]
    ring
  have hd0 : d = 0 := by
    rw [hddef]
    unfold dischargeAmount
    rw [if_neg (fun hcon => hnp hcon.2.1)]
  have hsoc2M : soc2 = cfg.max_soc := by
    rw [hsoc2def, hd0, hsoc1M]
    ring
  have hgc0 : gc = 0 := by
    rw [hgcdef]
    unfold gridChargeAmount
    rw [if_neg (fun hcon => absurd (hsoc2M ▸ hcon.2.2) (lt_irrefl _))]
  have hsoc3M : soc3 = cfg.max_soc := by
    rw [hsoc3def, hgc0, hsoc2M]
    ring
  constructor
  · rw [hstep2, hsoc3M]
    unfold clampSoc
    rw [min_self, max_eq_right hband]
  · rw [hstepgrid, hd0, hgc0, hrlL]
    ring

theorem smartRunAux_cap_mono (cfg : SimulationConfig) (c1 c2 : ℚ)
    (hv1 : ValidConfig { cfg with battery_capacity_kwh := c1 })
    (hv2 : ValidConfig { cfg with battery_capacity_kwh := c2 })
    (hc : c1 ≤ c2) (hs : List Nat) :
    (∀ x ∈ hs, ¬ isOffPeakHour x) → ∀ s1 s2 : ℚ,
      cfg.min_soc ≤ s1 → s1 ≤ cfg.max_soc → cfg.min_soc ≤ s2 → s2 ≤ cfg.max_soc →
      (s1 - cfg.min_soc) * c1 ≤ (s2 - cfg.min_soc) * c2 →
      ((smartRunAux { cfg with battery_capacity_kwh := c2 } hs s2).1.map
          fun r => r.grid * r.price).sum
        ≤ ((smartRunAux { cfg with battery_capacity_kwh := c1 } hs s1).1.map
          fun r => r.grid * r.price).sum := by
  induction hs with
  | nil =>
    intro _ s1 s2 _ _ _ _ _
    simp [smartRunAux]
  | cons h rest ih =>
    intro hall s1 s2 hb1l hb1u hb2l hb2u hA
    have hh : ¬ isOffPeakHour h := hall h (List.mem_cons_self h rest)
    have hrest : ∀ x ∈ rest, ¬ isOffPeakHour x :=
      fun x hx => hall x (List.mem_cons_of_mem h hx)
    obtain ⟨hE1, hl1, hu1, hG1⟩ :=
      smartStep_char { cfg with battery_capacity_kwh := c1 } h s1 hh hv1 hb1l hb1u
    obtain ⟨hE2, hl2, hu2, hG2⟩ :=
      smartStep_char { cfg with battery_capacity_kwh := c2 } h s2 hh hv2 hb2l hb2u
    simp only [withCap_min_soc, withCap_max_soc, withCap_cap]
      at hE1 hl1 hu1 hG1 hE2 hl2 hu2 hG2
    obtain ⟨hEmono, hGmono⟩ := afterHour_mono cfg c1 c2 h hv1.eff_pos hv1.band hc
      ((s1 - cfg.min_soc) * c1) ((s2 - cfg.min_soc) * c2) hA
    have hA' : ((smartStep { cfg with battery_capacity_kwh := c1 } h s1).2
          - cfg.min_soc) * c1
        ≤ ((smartStep { cfg with battery_capacity_kwh := c2 } h s2).2
          - cfg.min_soc) * c2 := by
      rw [hE1, hE2]
      exact hEmono
    have hgr : (smartStep { cfg with battery_capacity_kwh := c2 } h s2).1.grid
        ≤ (smartStep { cfg with battery_capacity_kwh := c1 } h s1).1.grid := by
      rw [hG1, hG2]
      exact hGmono
    have hp : 0 < getPrice cfg h := hv1.price_pos h
    simp only [smartRunAux, List.map_cons, List.sum_cons]
    have hhead : (smartStep { cfg with battery_capacity_kwh := c2 } h s2).1.grid
          * (smartStep { cfg with battery_capacity_kwh := c2 } h s2).1.price
        ≤ (smartStep { cfg with battery_capacity_kwh := c1 } h s1).1.grid
          * (smartStep { cfg with battery_capacity_kwh := c1 } h s1).1.price := by
      rw [smartStep_price, smartStep_price, getPrice_cap, getPrice_cap]
      exact mul_le_mul_of_nonneg_right hgr (le_of_lt hp)
    exact add_le_add hhead
      (ih hrest (smartStep { cfg with battery_capacity_kwh := c1 } h s1).2
        (smartStep { cfg with battery_capacity_kwh := c2 } h s2).2
        hl1 hu1 hl2 hu2 hA')

theorem smartRunAux_offpeak_at_max (cfg : SimulationConfig) (hv : ValidConfig cfg)
    (hs : List Nat) :
    ∀ s : ℚ, s = cfg.max_soc → (∀ x ∈ hs, isOffPeakHour x) →
      (smartRunAux cfg hs s).2 = cfg.max_soc ∧
      ((smartRunAux cfg hs s).1.map fun r => r.grid * r.price).sum
        = (hs.map fun h => loadProfile cfg h * getPrice cfg h).sum := by
  induction hs with
  | nil =>
    intro s hstart _
    exact ⟨hstart, rfl⟩
  | cons h rest ih =>
    intro s hstart hall
    subst hstart
    obtain ⟨hsoc, hgrid⟩ :=
      smartStep_offpeak_at_max cfg h (hall h (List.mem_cons_self h rest)) hv
    have ihh := ih (smartStep cfg h cfg.max_soc).2 hsoc
      fun x hx => hall x (List.mem_cons_of_mem h hx)
    simp only [smartRunAux, List.map_cons, List.sum_cons]
    exact ⟨ihh.1, by rw [hgrid, smartStep_price, ihh.2]⟩

theorem smartRunAux_append (cfg : SimulationConfig) (l1 l2 : List Nat) (s : ℚ) :
    smartRunAux cfg (l1 ++ l2) s
      = ((smartRunAux cfg l1 s).1
            ++ (smartRunAux cfg l2 (smartRunAux cfg l1 s).2).1,
         (smartRunAux cfg l2 (smartRunAux cfg l1 s).2).2) := by
  induction l1 generalizing s with
  | nil => simp [smartRunAux]
  | cons h rest ih =>
    simp only [List.cons_append, smartRunAux, List.append_eq, ih, List.nil_append]

theorem baselineHour_grid (cfg : SimulationConfig) (h : Nat) :
    (baselineHour cfg h).grid
      = loadProfile cfg h - min (solarProfile cfg h) (loadProfile cfg h) := rfl

theorem baselineHour_price (cfg : SimulationConfig) (h : Nat) :
    (baselineHour cfg h).price = getPrice cfg h := rfl

theorem baselineCost_pos (cfg : SimulationConfig) (hv : ValidConfig cfg) :
    0 < ((baselineRecords cfg).map fun r => r.grid * r.price).sum := by
  have hterm : ∀ h : Nat, 0 ≤ (baselineHour cfg h).grid * (baselineHour cfg h).price := by
    intro h
    apply mul_nonneg
    · rw [baselineHour_grid]
      have := min_le_right (solarProfile cfg h) (loadProfile cfg h)
      linarith
    · rw [baselineHour_price]
      exact le_of_lt (hv.price_pos h)
  have hhead : 0 < (baselineHour cfg 0).grid * (baselineHour cfg 0).price := by
    apply mul_pos
    · rw [baselineHour_grid]
      rw [solarProfile_zero_before_six cfg 0 (by norm_num)]
      rw [min_eq_left (le_of_lt (loadProfile_pos hv 0))]
      have := loadProfile_pos hv 0
      linarith
    · rw [baselineHour_price]
      exact hv.price_pos 0
  unfold baselineRecords
  rw [List.range_succ_eq_map]
  rw [List.map_cons, List.map_cons, List.sum_cons]
  have htail : 0 ≤ ((((List.range 23).map Nat.succ).map (baselineHour cfg)).map
      fun r => r.grid * r.price).sum := by
    apply List.sum_nonneg
    intro x hx
    simp only [List.mem_map] at hx
    obtain ⟨r, ⟨h', -, rfl⟩, rfl⟩ := hx
    exact hterm h'
  linarith

theorem smartCost_cap_mono_at_max (cfg : SimulationConfig) (c1 c2 : ℚ)
    (hv1 : ValidConfig { cfg with battery_capacity_kwh := c1 })
    (hv2 : ValidConfig { cfg with battery_capacity_kwh := c2 })
    (hinit : cfg.initial_soc = cfg.max_soc) (hc : c1 ≤ c2) :
    ((smartRecords { cfg with battery_capacity_kwh := c2 }).map
        fun r => r.grid * r.price).sum
      ≤ ((smartRecords { cfg with battery_capacity_kwh := c1 }).map
        fun r => r.grid * r.price).sum := by
  have hsplit : List.range 24
      = [0, 1, 2, 3, 4, 5]
        ++ [6, 7, 8, 9, 10, 11, 12, 13, 14, 15, 16, 17, 18, 19, 20, 21, 22, 23] := by
    rfl
  have hoffl : ∀ x ∈ [0, 1, 2, 3, 4, 5], isOffPeakHour x := by
    intro x hx
    unfold isOffPeakHour
    simp only [List.mem_cons, List.not_mem_nil, or_false] at hx
    rcases hx with rfl | rfl | rfl | rfl | rfl | rfl <;> norm_num
  have hnoffl : ∀ x ∈ [6, 7, 8, 9, 10, 11, 12, 13, 14, 15, 16, 17, 18, 19,
      20, 21, 22, 23], ¬ isOffPeakHour x := by
    intro x hx
    unfold isOffPeakHour
    simp only [List.mem_cons, List.not_mem_nil, or_false] at hx
    rcases hx with rfl | rfl | rfl | rfl | rfl | rfl | rfl | rfl | rfl | rfl |
      rfl | rfl | rfl | rfl | rfl | rfl | rfl | rfl <;> norm_num
  obtain ⟨hfin1, hcostA1⟩ :=
    smartRunAux_offpeak_at_max { cfg with battery_capacity_kwh := c1 } hv1
      [0, 1, 2, 3, 4, 5] cfg.initial_soc hinit hoffl
  obtain ⟨hfin2, hcostA2⟩ :=
    smartRunAux_offpeak_at_max { cfg with battery_capacity_kwh := c2 } hv2
      [0, 1, 2, 3, 4, 5] cfg.initial_soc hinit hoffl
  unfold smartRecords
  rw [hsplit, smartRunAux_append, smartRunAux_append]
  simp only [List.map_append, List.sum_append]
  rw [hfin1, hfin2, hcostA1, hcostA2]
  simp only [loadProfile_cap, getPrice_cap]
  have hband := hv1.band
  rw [withCap_min_soc, withCap_max_soc] at hband
  have hB := smartRunAux_cap_mono cfg c1 c2 hv1 hv2 hc
    [6, 7, 8, 9, 10, 11, 12, 13, 14, 15, 16, 17, 18, 19, 20, 21, 22, 23]
    hnoffl ({ cfg with battery_capacity_kwh := c1 } : SimulationConfig).max_soc
    ({ cfg with battery_capacity_kwh := c2 } : SimulationConfig).max_soc
    hband le_rfl hband le_rfl
    (mul_le_mul_of_nonneg_left hc (by linarith))
  linarith [hB]

set_option maxRecDepth 1000000 in
/-- Counterexample for C9: two valid configurations identical except for the
battery capacity (10 kWh versus 100 kWh; lossless battery, full SoC band,
half-charged start) for which the larger battery yields a strictly smaller
`cost_saved_percent`: the off-peak opportunistic grid charge fills the large
battery far beyond what peak shaving can use, and the unused energy is paid
for. -/
theorem c9_counterexample :
    ValidConfig c9SmallCfg ∧ ValidConfig c9LargeCfg ∧
    c9LargeCfg = { c9SmallCfg with battery_capacity_kwh := 100 } ∧
    c9SmallCfg.battery_capacity_kwh < c9LargeCfg.battery_capacity_kwh ∧
    (runComparison c9LargeCfg).summary.cost_saved_percent
      < (runComparison c9SmallCfg).summary.cost_saved_percent :=
  of_decide_eq_true (by with_unfolding_all rfl)

/-- C9 (amended): increasing `battery_capacity_kwh` with every other
parameter fixed never decreases the Smart strategy's `cost_saved_percent`,
provided the initial SoC equals `max_soc` — so that the off-peak
opportunistic grid charge (which buys energy proportional to the battery's
headroom, whether or not peak shaving can use it) never fires.  Without that
proviso the claim is false, as `c9_counterexample` shows. -/
theorem c9_capacity_monotone_full_start (cfg : SimulationConfig) (c1 c2 : ℚ)
    (hv1 : ValidConfig { cfg with battery_capacity_kwh := c1 })
    (hv2 : ValidConfig { cfg with battery_capacity_kwh := c2 })
    (hinit : cfg.initial_soc = cfg.max_soc) (hc : c1 ≤ c2) :
    (runComparison { cfg with battery_capacity_kwh := c1 }).summary.cost_saved_percent
      ≤ (runComparison { cfg with battery_capacity_kwh := c2 }).summary.cost_saved_percent := by
  have hscost := smartCost_cap_mono_at_max cfg c1 c2 hv1 hv2 hinit hc
  have hbpos : 0 < ((baselineRecords { cfg with battery_capacity_kwh := c1 }).map
      fun r => r.grid * r.price).sum := baselineCost_pos _ hv1
  have hbase_eq : baselineRecords { cfg with battery_capacity_kwh := c2 }
      = baselineRecords { cfg with battery_capacity_kwh := c1 } := rfl
  unfold runComparison computeSummary mkStrategyResult
  dsimp only
  rw [hbase_eq]
  rw [if_neg (ne_of_gt hbpos), if_neg (ne_of_gt hbpos)]
  apply mul_le_mul_of_nonneg_right _ (by norm_num : (0:ℚ) ≤ 100)
  rw [div_le_div_iff_of_pos_right hbpos]
  linarith [hscost]

set_option maxRecDepth 1000000 in
/-- Witness for the amended C9: on the configuration starting with a full
battery (initial SoC = `max_soc` = 0.9), growing the battery from 5 kWh to
20 kWh does not decrease the cost saving. -/
theorem c9_capacity_monotone_full_start_witness :
    (runComparison { c9FullStartCfg with battery_capacity_kwh := 5 }).summary.cost_saved_percent
      ≤ (runComparison { c9FullStartCfg with battery_capacity_kwh := 20 }).summary.cost_saved_percent :=
  c9_capacity_monotone_full_start c9FullStartCfg 5 20
    (of_decide_eq_true (by with_unfolding_all rfl))
    (of_decide_eq_true (by with_unfolding_all rfl)) rfl
    (of_decide_eq_true (by with_unfolding_all rfl))

end Microgrid
